import Mathlib

/-!
Shallow embedding of the Dify JS client library (index.js): the endpoint
registry `routes`, the base `DifyClient` (state `apiKey`/`baseUrl`, the
request dispatcher `sendRequest`, `messageFeedback`,
`getApplicationParameters`, `fileUpload`), and the specialized
`CompletionClient` / `ChatClient` operations.

JavaScript objects are modelled as association lists `List (String × α)`
with unique keys, in insertion order; property assignment (`o.k = v`) is
`setKey` (replace the existing entry in place, else append), object spread
merge (`{...a, ...b}`) is `spread2`, and property lookup is `getKey`.
JavaScript values appearing in request bodies and query objects are
modelled by `JValue`, with JS truthiness as `JValue.truthy`.
Each client method is a pure function from the client state and its
arguments to the axios request envelope (`Request`) it dispatches; the
async transport is modelled in `sendRequestM` as a function
`Request → Except ε α` (a rejected promise is `Except.error`).
-/

set_option autoImplicit false

/-- A JavaScript value as it occurs in request bodies and query objects:
`null`, booleans, numbers, strings, objects and arrays. -/
inductive JValue where
  | null
  | bool (b : Bool)
  | num (n : Int)
  | str (s : String)
  | obj (fields : List (String × JValue))
  | arr (elements : List JValue)

/-- JavaScript truthiness: `null`, `false`, `0` and `""` are falsy;
every object or array is truthy. -/
def JValue.truthy : JValue → Bool
  | .null => false
  | .bool b => b
  | .num n => n != 0
  | .str s => s != ""
  | .obj _ => true
  | .arr _ => true

/-- A JS object with `JValue` fields (request body or query object). -/
abbrev JObject := List (String × JValue)

/-- JS property lookup `o[k]` on an object modelled as an association
list: the value at the first matching key. -/
def getKey {α : Type} : List (String × α) → String → Option α
  | [], _ => none
  | (k', v) :: rest, k => if k' = k then some v else getKey rest k

/-- JS property assignment `o.k = v` on an object with unique keys:
replace the first entry with key `k` in place, else append `(k, v)`. -/
def setKey {α : Type} : List (String × α) → String → α → List (String × α)
  | [], k, v => [(k, v)]
  | (k', v') :: rest, k, v =>
      if k' = k then (k, v) :: rest else (k', v') :: setKey rest k v

/-- JS object spread `{...base, ...extra}`: assign each entry of `extra`
onto `base` in order (later writes win per key). -/
def spread2 {α : Type} (base extra : List (String × α)) : List (String × α) :=
  extra.foldl (fun acc p => setKey acc p.1 p.2) base

/-- The default base URL of the service (`BASE_URL` in the source). -/
def BASE_URL : String := "https://api.dify.ai/v1"

/-- An entry of the endpoint registry whose URL builder takes no path
parameter. -/
structure Route0 where
  method : String
  url : String

/-- An entry of the endpoint registry whose URL builder takes one path
parameter. -/
structure Route1 where
  method : String
  url : String → String

def routes.application : Route0 :=
  { method := "GET", url := "/parameters" }

def routes.feedback : Route1 :=
  { method := "POST", url := fun message_id => "/messages/" ++ message_id ++ "/feedbacks" }

def routes.createCompletionMessage : Route0 :=
  { method := "POST", url := "/completion-messages" }

def routes.createChatMessage : Route0 :=
  { method := "POST", url := "/chat-messages" }

def routes.getConversationMessages : Route0 :=
  { method := "GET", url := "/messages" }

def routes.getConversations : Route0 :=
  { method := "GET", url := "/conversations" }

def routes.renameConversation : Route1 :=
  { method := "POST", url := fun conversation_id => "/conversations/" ++ conversation_id ++ "/name" }

def routes.deleteConversation : Route1 :=
  { method := "DELETE", url := fun conversation_id => "/conversations/" ++ conversation_id }

def routes.fileUpload : Route0 :=
  { method := "POST", url := "/files/upload" }

def routes.runWorkflow : Route0 :=
  { method := "POST", url := "/workflows/run" }

/-- The mutable state of a `DifyClient` instance: `this.apiKey` and
`this.baseUrl`, both set by the constructor. -/
structure DifyClient where
  apiKey : String
  baseUrl : String

/-- The constructor `new DifyClient(apiKey, baseUrl = BASE_URL)`. -/
def DifyClient.mk' (apiKey : String) (baseUrl : String) : DifyClient :=
  { apiKey := apiKey, baseUrl := baseUrl }

/-- `updateApiKey(apiKey)`: the source assigns `this.apiKey = apiKey`
unconditionally (it performs no validation, despite its doc comment). -/
def DifyClient.updateApiKey (s : DifyClient) (apiKey : String) : DifyClient :=
  { s with apiKey := apiKey }

/-- The axios request envelope built by `sendRequest`: method, full URL,
body, query params, headers and response type (`"stream"` or `"json"`). -/
structure Request where
  method : String
  url : String
  data : Option JObject
  params : Option JObject
  headers : List (String × String)
  responseType : String

/-- `sendRequest(method, endpoint, data, params, stream, headerParams)`:
headers are `{Authorization: Bearer <apiKey>, Content-Type:
application/json}` spread-merged with `headerParams`, the URL is
`baseUrl + endpoint`, and the response type is `"stream"` when `stream`
is true, else `"json"`. This pure function returns the envelope handed
to the transport. -/
def DifyClient.sendRequest (s : DifyClient) (method endpoint : String)
    (data params : Option JObject) (stream : Bool)
    (headerParams : List (String × String)) : Request :=
  { method := method
    url := s.baseUrl ++ endpoint
    data := data
    params := params
    headers := spread2
      [("Authorization", "Bearer " ++ s.apiKey), ("Content-Type", "application/json")]
      headerParams
    responseType := if stream then "stream" else "json" }

/-- `sendRequest` with the transport made explicit: `axios` maps an
envelope to a settled promise (`Except.error` is rejection). The source
awaits exactly one `axios` call, chosen by the `stream` branch, and
returns its result. -/
def DifyClient.sendRequestM {ε α : Type} (axios : Request → Except ε α)
    (s : DifyClient) (method endpoint : String)
    (data params : Option JObject) (stream : Bool)
    (headerParams : List (String × String)) : Except ε α := do
  let headers := spread2
    [("Authorization", "Bearer " ++ s.apiKey), ("Content-Type", "application/json")]
    headerParams
  let url := s.baseUrl ++ endpoint
  let response ←
    if stream then
      axios { method := method, url := url, data := data, params := params,
              headers := headers, responseType := "stream" }
    else
      axios { method := method, url := url, data := data, params := params,
              headers := headers, responseType := "json" }
  return response

/-- `messageFeedback(message_id, rating, user)`. -/
def DifyClient.messageFeedback (s : DifyClient) (message_id : String)
    (rating user : JValue) : Request :=
  s.sendRequest routes.feedback.method (routes.feedback.url message_id)
    (some [("rating", rating), ("user", user)]) none false []

/-- `getApplicationParameters(user)`. -/
def DifyClient.getApplicationParameters (s : DifyClient) (user : JValue) : Request :=
  s.sendRequest routes.application.method routes.application.url
    none (some [("user", user)]) false []

/-- `fileUpload(data)`: POST with the caller's form data and the header
override `Content-Type: multipart/form-data`. -/
def DifyClient.fileUpload (s : DifyClient) (data : JObject) : Request :=
  s.sendRequest routes.fileUpload.method routes.fileUpload.url
    (some data) none false [("Content-Type", "multipart/form-data")]

/-- `createCompletionMessage(inputs, user, stream = false, files = null)`. -/
def CompletionClient.createCompletionMessage (s : DifyClient)
    (inputs user : JValue) (stream : Bool) (files : JValue) : Request :=
  s.sendRequest routes.createCompletionMessage.method routes.createCompletionMessage.url
    (some [("inputs", inputs), ("user", user),
           ("response_mode", .str (if stream then "streaming" else "blocking")),
           ("files", files)])
    none stream []

/-- `runWorkflow(inputs, user, stream = false, files = null)`: the body
carries `inputs`, `user` and `response_mode` only — the `files` argument
is accepted but not forwarded. -/
def CompletionClient.runWorkflow (s : DifyClient)
    (inputs user : JValue) (stream : Bool) (files : JValue) : Request :=
  s.sendRequest routes.runWorkflow.method routes.runWorkflow.url
    (some [("inputs", inputs), ("user", user),
           ("response_mode", .str (if stream then "streaming" else "blocking"))])
    none stream []

/-- `createChatMessage(inputs, query, user, stream = false,
conversation_id = null, files = null)`: `conversation_id` is assigned
onto the body only when truthy. -/
def ChatClient.createChatMessage (s : DifyClient)
    (inputs query user : JValue) (stream : Bool)
    (conversation_id files : JValue) : Request :=
  let data : JObject :=
    [("inputs", inputs), ("query", query), ("user", user),
     ("response_mode", .str (if stream then "streaming" else "blocking")),
     ("files", files)]
  let data := if conversation_id.truthy then setKey data "conversation_id" conversation_id else data
  s.sendRequest routes.createChatMessage.method routes.createChatMessage.url
    (some data) none stream []

/-- `getConversationMessages(user, conversation_id = "", first_id = null,
limit = null)`: the query object starts as `{user}` and each optional
key is assigned only when its argument is truthy. -/
def ChatClient.getConversationMessages (s : DifyClient)
    (user conversation_id first_id limit : JValue) : Request :=
  let params : JObject := [("user", user)]
  let params := if conversation_id.truthy then setKey params "conversation_id" conversation_id else params
  let params := if first_id.truthy then setKey params "first_id" first_id else params
  let params := if limit.truthy then setKey params "limit" limit else params
  s.sendRequest routes.getConversationMessages.method routes.getConversationMessages.url
    none (some params) false []

/-- `getConversations(user, first_id = null, limit = null, pinned = null)`:
the query object always carries all four keys, null-valued or not. -/
def ChatClient.getConversations (s : DifyClient)
    (user first_id limit pinned : JValue) : Request :=
  s.sendRequest routes.getConversations.method routes.getConversations.url
    none (some [("user", user), ("first_id", first_id), ("limit", limit), ("pinned", pinned)])
    false []

/-- `renameConversation(conversation_id, name, user, auto_generate)`. -/
def ChatClient.renameConversation (s : DifyClient) (conversation_id : String)
    (name user auto_generate : JValue) : Request :=
  s.sendRequest routes.renameConversation.method (routes.renameConversation.url conversation_id)
    (some [("name", name), ("user", user), ("auto_generate", auto_generate)]) none false []

/-- `deleteConversation(conversation_id, user)`. -/
def ChatClient.deleteConversation (s : DifyClient) (conversation_id : String)
    (user : JValue) : Request :=
  s.sendRequest routes.deleteConversation.method (routes.deleteConversation.url conversation_id)
    (some [("user", user)]) none false []

/-- Body lookup on a request envelope: `none` when the body is `null`. -/
def Request.dataKey (r : Request) (k : String) : Option JValue :=
  match r.data with
  | some b => getKey b k
  | none => none

/-- Query lookup on a request envelope: `none` when the params are `null`. -/
def Request.paramKey (r : Request) (k : String) : Option JValue :=
  match r.params with
  | some b => getKey b k
  | none => none

/-- The last value written for key `k` in a list of writes (JS spread:
later entries win). -/
def lookupLast {α : Type} : List (String × α) → String → Option α
  | [], _ => none
  | (k', v) :: rest, k =>
      match lookupLast rest k with
      | some w => some w
      | none => if k' = k then some v else none

/-- After a property assignment, the assigned key holds the assigned
value and every other key is unchanged. -/
theorem getKey_setKey {α : Type} (o : List (String × α)) (k k' : String) (v : α) :
    getKey (setKey o k v) k' = if k = k' then some v else getKey o k' := by
  induction o with
  | nil => simp [setKey, getKey]
  | cons p rest ih =>
    obtain ⟨k₀, v₀⟩ := p
    by_cases h : k₀ = k
    · subst h
      simp [setKey, getKey]
      by_cases hk : k₀ = k' <;> simp [hk]
    · simp [setKey, getKey, h, ih]
      split_ifs with h1 h2 <;> simp_all

/-- Lookup after a spread merge is last-write-wins: the last value the
`extra` writes give `k`, else the value in `base`. -/
theorem getKey_spread2 {α : Type} (base extra : List (String × α)) (k : String) :
    getKey (spread2 base extra) k =
      match lookupLast extra k with
      | some w => some w
      | none => getKey base k := by
  induction extra generalizing base with
  | nil => simp [spread2, lookupLast]
  | cons p rest ih =>
    obtain ⟨k₀, v₀⟩ := p
    show getKey (spread2 (setKey base k₀ v₀) rest) k = _
    rw [ih]
    cases hl : lookupLast rest k with
    | some w => simp [lookupLast, hl]
    | none =>
      rw [getKey_setKey]
      by_cases hk : k₀ = k <;> simp [lookupLast, hl, hk]

/-- One external interaction with a client instance: an `updateApiKey`
call, a raw dispatcher call, or one of the public operations. -/
inductive ClientEvent where
  | update (apiKey : String)
  | sendReq (method endpoint : String) (data params : Option JObject)
      (stream : Bool) (headerParams : List (String × String))
  | feedback (message_id : String) (rating user : JValue)
  | appParams (user : JValue)
  | upload (data : JObject)
  | completionMsg (inputs user : JValue) (stream : Bool) (files : JValue)
  | workflow (inputs user : JValue) (stream : Bool) (files : JValue)
  | chatMsg (inputs query user : JValue) (stream : Bool) (conversation_id files : JValue)
  | convMessages (user conversation_id first_id limit : JValue)
  | convList (user first_id limit pinned : JValue)
  | rename (conversation_id : String) (name user auto_generate : JValue)
  | deleteConv (conversation_id : String) (user : JValue)

/-- Step one event: `update` mutates the stored key and dispatches
nothing; every other event leaves the state alone and dispatches exactly
the request its operation builds. -/
def stepEvent (s : DifyClient) : ClientEvent → DifyClient × List Request
  | .update k => (s.updateApiKey k, [])
  | .sendReq method endpoint data params stream hdrs =>
      (s, [s.sendRequest method endpoint data params stream hdrs])
  | .feedback mid rating user => (s, [s.messageFeedback mid rating user])
  | .appParams user => (s, [s.getApplicationParameters user])
  | .upload d => (s, [s.fileUpload d])
  | .completionMsg inputs user stream files =>
      (s, [CompletionClient.createCompletionMessage s inputs user stream files])
  | .workflow inputs user stream files =>
      (s, [CompletionClient.runWorkflow s inputs user stream files])
  | .chatMsg inputs query user stream cid files =>
      (s, [ChatClient.createChatMessage s inputs query user stream cid files])
  | .convMessages user cid fid limit =>
      (s, [ChatClient.getConversationMessages s user cid fid limit])
  | .convList user fid limit pinned =>
      (s, [ChatClient.getConversations s user fid limit pinned])
  | .rename cid name user ag => (s, [ChatClient.renameConversation s cid name user ag])
  | .deleteConv cid user => (s, [ChatClient.deleteConversation s cid user])

/-- Run a sequence of events from an initial state, collecting the
dispatched requests in order. -/
def runEvents (s : DifyClient) : List ClientEvent → DifyClient × List Request
  | [] => (s, [])
  | e :: rest =>
      let step := stepEvent s e
      let tail := runEvents step.1 rest
      (tail.1, step.2 ++ tail.2)

/-- The API key most recently set by an `update` event in the sequence,
else the initial key. -/
def lastApiKey (k : String) : List ClientEvent → String
  | [] => k
  | .update k' :: rest => lastApiKey k' rest
  | _ :: rest => lastApiKey k rest

/-- Events that are public client operations (everything except an
`updateApiKey` call and a raw dispatcher call). -/
def ClientEvent.isOperation : ClientEvent → Bool
  | .update _ => false
  | .sendReq _ _ _ _ _ _ => false
  | _ => true

/-- After any event sequence, the stored API key is the most recently
set one. -/
theorem runEvents_fst_apiKey (s : DifyClient) (es : List ClientEvent) :
    (runEvents s es).1.apiKey = lastApiKey s.apiKey es := by
  induction es generalizing s with
  | nil => rfl
  | cons e rest ih =>
    cases e <;> simp [runEvents, stepEvent, lastApiKey, DifyClient.updateApiKey, ih]

/-- Every request dispatched by a public operation carries
`Authorization: Bearer <current apiKey>`. -/
theorem stepEvent_auth (s : DifyClient) (e : ClientEvent) (h : e.isOperation = true) :
    ∀ r ∈ (stepEvent s e).2,
      getKey r.headers "Authorization" = some ("Bearer " ++ s.apiKey) := by
  cases e <;>
    simp_all [stepEvent, ClientEvent.isOperation, DifyClient.sendRequest,
      DifyClient.messageFeedback, DifyClient.getApplicationParameters,
      DifyClient.fileUpload, CompletionClient.createCompletionMessage,
      CompletionClient.runWorkflow, ChatClient.createChatMessage,
      ChatClient.getConversationMessages, ChatClient.getConversations,
      ChatClient.renameConversation, ChatClient.deleteConversation,
      spread2, setKey, getKey]

/-- Claim C1: the spec says `updateApiKey` rejects an empty/missing key
and leaves the stored key unchanged. The source performs no validation:
called with the empty string on a client holding key `"k0"`, it
overwrites the stored key with `""` instead of preserving it,
contradicting the claim and the function's own doc comment
(`@throws {Error} If apiKey is not provided`). -/
theorem C1_updateApiKey_empty_overwrites :
    (DifyClient.updateApiKey { apiKey := "k0", baseUrl := BASE_URL } "").apiKey = "" ∧
    (DifyClient.updateApiKey { apiKey := "k0", baseUrl := BASE_URL } "").apiKey ≠ "k0" :=
  ⟨rfl, by decide⟩

/-- Claim C2: in `createCompletionMessage`, `runWorkflow` and
`createChatMessage`, the body's `response_mode` is `"streaming"` exactly
when the `stream` argument is true (else `"blocking"`), and the
dispatcher's streaming flag (visible as the envelope's response type)
matches the same argument. -/
theorem C2_response_mode_matches_stream (s : DifyClient)
    (inputs query user files conversation_id : JValue) (stream : Bool) :
    ((CompletionClient.createCompletionMessage s inputs user stream files).dataKey "response_mode"
        = some (.str (if stream then "streaming" else "blocking")) ∧
     (CompletionClient.createCompletionMessage s inputs user stream files).responseType
        = (if stream then "stream" else "json")) ∧
    ((CompletionClient.runWorkflow s inputs user stream files).dataKey "response_mode"
        = some (.str (if stream then "streaming" else "blocking")) ∧
     (CompletionClient.runWorkflow s inputs user stream files).responseType
        = (if stream then "stream" else "json")) ∧
    ((ChatClient.createChatMessage s inputs query user stream conversation_id files).dataKey "response_mode"
        = some (.str (if stream then "streaming" else "blocking")) ∧
     (ChatClient.createChatMessage s inputs query user stream conversation_id files).responseType
        = (if stream then "stream" else "json")) := by
  by_cases hc : conversation_id.truthy <;>
    simp [CompletionClient.createCompletionMessage, CompletionClient.runWorkflow,
      ChatClient.createChatMessage, DifyClient.sendRequest, Request.dataKey,
      getKey, setKey, hc]

/-- Claim C3: `getConversationMessages` builds its query with `user`
always present and `conversation_id`/`first_id`/`limit` present exactly
when the corresponding argument is truthy, while `getConversations`
always sends all four keys `user`, `first_id`, `limit`, `pinned`, even
null-valued ones. -/
theorem C3_query_key_policy (s : DifyClient)
    (user conversation_id first_id limit pinned : JValue) :
    ((ChatClient.getConversationMessages s user conversation_id first_id limit).paramKey "user"
        = some user ∧
     (ChatClient.getConversationMessages s user conversation_id first_id limit).paramKey "conversation_id"
        = (if conversation_id.truthy then some conversation_id else none) ∧
     (ChatClient.getConversationMessages s user conversation_id first_id limit).paramKey "first_id"
        = (if first_id.truthy then some first_id else none) ∧
     (ChatClient.getConversationMessages s user conversation_id first_id limit).paramKey "limit"
        = (if limit.truthy then some limit else none)) ∧
    (ChatClient.getConversations s user first_id limit pinned).params
        = some [("user", user), ("first_id", first_id), ("limit", limit), ("pinned", pinned)] := by
  by_cases h1 : conversation_id.truthy <;> by_cases h2 : first_id.truthy <;>
    by_cases h3 : limit.truthy <;>
    simp [ChatClient.getConversationMessages, ChatClient.getConversations,
      DifyClient.sendRequest, Request.paramKey, getKey, setKey, h1, h2, h3]

/-- Claim C4: `createChatMessage` includes `conversation_id` in the body
exactly when the argument is truthy (no key at all otherwise), alongside
`inputs`, `query`, `user`, `response_mode` and `files`. -/
theorem C4_conversation_id_omitted_iff_falsy (s : DifyClient)
    (inputs query user conversation_id files : JValue) (stream : Bool) :
    (ChatClient.createChatMessage s inputs query user stream conversation_id files).dataKey "conversation_id"
        = (if conversation_id.truthy then some conversation_id else none) ∧
    (ChatClient.createChatMessage s inputs query user stream conversation_id files).dataKey "inputs"
        = some inputs ∧
    (ChatClient.createChatMessage s inputs query user stream conversation_id files).dataKey "query"
        = some query ∧
    (ChatClient.createChatMessage s inputs query user stream conversation_id files).dataKey "user"
        = some user ∧
    (ChatClient.createChatMessage s inputs query user stream conversation_id files).dataKey "response_mode"
        = some (.str (if stream then "streaming" else "blocking")) ∧
    (ChatClient.createChatMessage s inputs query user stream conversation_id files).dataKey "files"
        = some files := by
  by_cases hc : conversation_id.truthy <;>
    simp [ChatClient.createChatMessage, DifyClient.sendRequest, Request.dataKey,
      getKey, setKey, hc]

/-- Claim C5: the final header map of `sendRequest` is the defaults
`{Authorization: Bearer <apiKey>, Content-Type: application/json}`
overridden per key by `extraHeaders` (last write wins); `fileUpload`'s
headers carry `Content-Type: multipart/form-data` and no
`application/json` content type. -/
theorem C5_headers_last_write_wins (s : DifyClient) (method endpoint : String)
    (data params : Option JObject) (stream : Bool)
    (extra : List (String × String)) (k : String) (d : JObject) :
    (getKey (s.sendRequest method endpoint data params stream extra).headers k
       = match lookupLast extra k with
         | some v => some v
         | none => getKey [("Authorization", "Bearer " ++ s.apiKey),
                           ("Content-Type", "application/json")] k) ∧
    getKey (s.fileUpload d).headers "Content-Type" = some "multipart/form-data" ∧
    ("Content-Type", "application/json") ∉ (s.fileUpload d).headers := by
  refine ⟨?_, ?_, ?_⟩
  · simp only [DifyClient.sendRequest]
    cases hl : lookupLast extra k <;> simp [getKey_spread2, hl]
  · simp [DifyClient.fileUpload, DifyClient.sendRequest, spread2, setKey, getKey]
  · simp [DifyClient.fileUpload, DifyClient.sendRequest, spread2, setKey]

/-- Claim C6: the endpoint registry yields exactly the method and path of
the spec's interface table, path parameters inserted by plain string
interpolation; in particular `renameConversation` dispatches POST to
`/conversations/<id>/name` with body `{name, user, auto_generate}` and
`deleteConversation` dispatches DELETE to `/conversations/<id>` with body
`{user}`. -/
theorem C6_endpoint_registry (s : DifyClient) (mid cid : String)
    (name user auto_generate : JValue) :
    (routes.application.method = "GET" ∧ routes.application.url = "/parameters") ∧
    (routes.feedback.method = "POST" ∧
      routes.feedback.url mid = "/messages/" ++ mid ++ "/feedbacks") ∧
    (routes.createCompletionMessage.method = "POST" ∧
      routes.createCompletionMessage.url = "/completion-messages") ∧
    (routes.createChatMessage.method = "POST" ∧
      routes.createChatMessage.url = "/chat-messages") ∧
    (routes.getConversationMessages.method = "GET" ∧
      routes.getConversationMessages.url = "/messages") ∧
    (routes.getConversations.method = "GET" ∧
      routes.getConversations.url = "/conversations") ∧
    (routes.renameConversation.method = "POST" ∧
      routes.renameConversation.url cid = "/conversations/" ++ cid ++ "/name") ∧
    (routes.deleteConversation.method = "DELETE" ∧
      routes.deleteConversation.url cid = "/conversations/" ++ cid) ∧
    (routes.fileUpload.method = "POST" ∧ routes.fileUpload.url = "/files/upload") ∧
    (routes.runWorkflow.method = "POST" ∧ routes.runWorkflow.url = "/workflows/run") ∧
    ((ChatClient.renameConversation s cid name user auto_generate).method = "POST" ∧
     (ChatClient.renameConversation s cid name user auto_generate).url
        = s.baseUrl ++ ("/conversations/" ++ cid ++ "/name") ∧
     (ChatClient.renameConversation s cid name user auto_generate).data
        = some [("name", name), ("user", user), ("auto_generate", auto_generate)]) ∧
    ((ChatClient.deleteConversation s cid user).method = "DELETE" ∧
     (ChatClient.deleteConversation s cid user).url
        = s.baseUrl ++ ("/conversations/" ++ cid) ∧
     (ChatClient.deleteConversation s cid user).data = some [("user", user)]) :=
  ⟨⟨rfl, rfl⟩, ⟨rfl, rfl⟩, ⟨rfl, rfl⟩, ⟨rfl, rfl⟩, ⟨rfl, rfl⟩, ⟨rfl, rfl⟩,
   ⟨rfl, rfl⟩, ⟨rfl, rfl⟩, ⟨rfl, rfl⟩, ⟨rfl, rfl⟩,
   ⟨rfl, rfl, rfl⟩, ⟨rfl, rfl, rfl⟩⟩

/-- Claim C7: over any sequence of `updateApiKey` calls and dispatched
operations, the stored key after the sequence is the most recently set
one, and the `Authorization` header a next operation builds is
`Bearer <that key>` — the credential is read at call time. -/
theorem C7_auth_reflects_latest_key (s : DifyClient) (es : List ClientEvent)
    (e : ClientEvent) (h : e.isOperation = true) :
    (runEvents s es).1.apiKey = lastApiKey s.apiKey es ∧
    ∀ r ∈ (stepEvent (runEvents s es).1 e).2,
      getKey r.headers "Authorization" = some ("Bearer " ++ lastApiKey s.apiKey es) := by
  refine ⟨runEvents_fst_apiKey s es, fun r hr => ?_⟩
  rw [← runEvents_fst_apiKey s es]
  exact stepEvent_auth _ e h r hr

/-- Witness for C7: after `updateApiKey("k1")`, a
`getApplicationParameters` dispatch carries `Authorization: Bearer k1`. -/
theorem C7_witness :
    getKey (DifyClient.getApplicationParameters
        { apiKey := "k1", baseUrl := BASE_URL } .null).headers "Authorization"
      = some ("Bearer " ++ lastApiKey "k0" [ClientEvent.update "k1"]) :=
  (C7_auth_reflects_latest_key { apiKey := "k0", baseUrl := BASE_URL }
      [ClientEvent.update "k1"] (.appParams .null) rfl).2
    _ (by simp [runEvents, stepEvent, DifyClient.updateApiKey])

/-- Claim C8: `runWorkflow`'s body carries exactly `inputs`, `user` and
`response_mode` and never a `files` key, even when `files` is supplied;
`createCompletionMessage`'s body does carry `files`. -/
theorem C8_workflow_body_omits_files (s : DifyClient)
    (inputs user files : JValue) (stream : Bool) :
    (CompletionClient.runWorkflow s inputs user stream files).data
        = some [("inputs", inputs), ("user", user),
                ("response_mode", .str (if stream then "streaming" else "blocking"))] ∧
    (CompletionClient.runWorkflow s inputs user stream files).dataKey "files" = none ∧
    (CompletionClient.createCompletionMessage s inputs user stream files).dataKey "files"
        = some files := by
  refine ⟨rfl, ?_, ?_⟩ <;>
    simp [CompletionClient.runWorkflow, CompletionClient.createCompletionMessage,
      DifyClient.sendRequest, Request.dataKey, getKey]

/-- Claim C9: the dispatcher's result is exactly one transport call on
the envelope it built — a transport rejection propagates unchanged, with
no retry, catching, wrapping or status branching. -/
theorem C9_transport_passthrough {ε α : Type} (t : Request → Except ε α)
    (s : DifyClient) (method endpoint : String) (data params : Option JObject)
    (stream : Bool) (extra : List (String × String)) :
    DifyClient.sendRequestM t s method endpoint data params stream extra
        = t (s.sendRequest method endpoint data params stream extra) ∧
    ∀ e : ε, t (s.sendRequest method endpoint data params stream extra) = Except.error e →
      DifyClient.sendRequestM t s method endpoint data params stream extra
        = Except.error e := by
  have h1 : DifyClient.sendRequestM t s method endpoint data params stream extra
      = t (s.sendRequest method endpoint data params stream extra) := by
    cases stream <;> simp [DifyClient.sendRequestM, DifyClient.sendRequest]
  exact ⟨h1, fun e he => h1.trans he⟩

/-- Witness for C9: a transport that rejects with `"boom"` makes the
dispatcher reject with the same value. -/
theorem C9_witness :
    DifyClient.sendRequestM (fun _ => (Except.error "boom" : Except String Unit))
        { apiKey := "k", baseUrl := BASE_URL } "GET" "/parameters" none none false []
      = Except.error "boom" :=
  (C9_transport_passthrough (fun _ => (Except.error "boom" : Except String Unit))
      { apiKey := "k", baseUrl := BASE_URL } "GET" "/parameters" none none false []).2
    "boom" rfl

/-- Claim C10: every event other than an `updateApiKey` call — a raw
`sendRequest` or any base/completion/chat operation — leaves the client
state (both `apiKey` and `baseUrl`) unchanged. -/
theorem C10_ops_preserve_state (st : DifyClient) (e : ClientEvent)
    (h : ∀ k : String, e ≠ ClientEvent.update k) :
    (stepEvent st e).1 = st := by
  cases e <;> first
    | rfl
    | exact absurd rfl (h _)

/-- Witness for C10: a `getApplicationParameters` dispatch leaves the
state unchanged. -/
theorem C10_witness :
    (stepEvent { apiKey := "k", baseUrl := BASE_URL }
        (ClientEvent.appParams .null)).1
      = { apiKey := "k", baseUrl := BASE_URL } :=
  C10_ops_preserve_state { apiKey := "k", baseUrl := BASE_URL }
    (ClientEvent.appParams .null) (fun _ hk => by cases hk)
